import Mathlib

/-!
Verification of the core of the TRON weather widget: the provider registry
(server/providers/base.py), the sinoptik provider (server/providers/sinoptik.py)
and the daily cache writer (server/update_cache.py), as a shallow embedding.

Python optional string arguments are `Option String` (with `none` for the
default `None`), Python truthiness of such arguments is made explicit, machine
integers play no role (hours are `Nat`), fallible code returns `Except`.
The HTML fetch and XPath extraction are the external collaborator: a page is
represented by the three aligned value lists extracted from it.
-/

namespace Tron

/-- Python truthiness of an optional string argument whose default is `None`:
`None` and the empty string are falsy, every other string is truthy. -/
def truthyStr : Option String → Bool
  | none => false
  | some s => s != ""

/-- One entry of a provider's location table, a dict
`{'name': ..., 'id': ...}` (sinoptik.py, `populate_default_locations`). -/
structure Location where
  name : String
  id : String
  deriving DecidableEq, Repr

/-- Uncaught Python exceptions raised by the provider code.
`typeError` models the `TypeError` raised at `location['id']` in
`get_location_id_by_name` when the name lookup returned `None` — this is how
the spec's `UnknownLocation` failure surfaces; `valueError` models
`ValueError("SinoptikProvider.download_data(): No location ID specified")`. -/
inductive PyErr where
  | typeError
  | valueError
  deriving DecidableEq, Repr

/-- Value returned by `covers_location`: the matching location dict (truthy),
Python `None` (falsy, from a failed `next(..., None)` lookup), or the literal
`False` (falsy). -/
inductive PyTruth where
  | location (l : Location)
  | noneV
  | falseV
  deriving DecidableEq, Repr

/-- Python truthiness of a `covers_location` result. -/
def truthy : PyTruth → Bool
  | .location _ => true
  | .noneV => false
  | .falseV => false

/-- Embeds `get_location_by_id(self, name)`:
`next((c for c in self.locations if c['id'] == name), None)`. -/
def get_location_by_id (locations : List Location) (name : String) :
    Option Location :=
  locations.find? (fun c => c.id == name)

/-- Embeds `get_location_by_name(self, name)`:
`next((c for c in self.locations if c['name'] == name), None)`. -/
def get_location_by_name (locations : List Location) (name : String) :
    Option Location :=
  locations.find? (fun c => c.name == name)

/-- Embeds `get_location_id_by_name(self, name)`: subscripting the lookup
result with `['id']` raises `TypeError` when it is `None`, otherwise yields
the location's id. -/
def get_location_id_by_name (locations : List Location) (name : String) :
    Except PyErr String :=
  match get_location_by_name locations name with
  | some location => Except.ok location.id
  | none => Except.error PyErr.typeError

/-- Embeds `SinoptikProvider.covers_location(self, location_id=None,
location_name=None)`: return the id lookup result if `location_id` is truthy,
else the name lookup result if `location_name` is truthy, else `False`. -/
def covers_location (locations : List Location)
    (location_id location_name : Option String) : PyTruth :=
  if truthyStr location_id then
    match get_location_by_id locations (location_id.getD "") with
    | some l => PyTruth.location l
    | none => PyTruth.noneV
  else if truthyStr location_name then
    match get_location_by_name locations (location_name.getD "") with
    | some l => PyTruth.location l
    | none => PyTruth.noneV
  else PyTruth.falseV

/-- The three aligned value lists that the XPath queries of `download_data`
extract from the hourly page (`max-temp` spans, precipitation probability,
precipitation intensity). -/
structure Page where
  temp : List String
  rain_probability : List String
  rain_intensity : List String

/-- Embeds `hourly_url % location_id` with
`hourly_url = "http://m.sinoptik.bg/%s/hourly"`. -/
def hourly_url (location_id : String) : String :=
  "http://m.sinoptik.bg/" ++ location_id ++ "/hourly"

/-- Embeds `hours = [str((hour + i) % 24) + ':00' for i in range(24)]`.
Note `str` prints the hour without zero padding. -/
def hour_labels (hour : Nat) : List String :=
  (List.range 24).map (fun i => toString ((hour + i) % 24) ++ ":00")

/-- One step of `OrderedDict` construction, `d[k] = v`: update the value in
place when the key is already present, else append the pair at the end. -/
def od_insert {V : Type} (d : List (String × V)) (k : String) (v : V) :
    List (String × V) :=
  if d.any (fun kv => kv.1 == k) then
    d.map (fun kv => if kv.1 == k then (k, v) else kv)
  else d ++ [(k, v)]

/-- Embeds `OrderedDict(pairs)`: insert the pairs, in order, into an empty
dict. -/
def od_from_pairs {V : Type} (ps : List (String × V)) : List (String × V) :=
  ps.foldl (fun d kv => od_insert d kv.1 kv.2) []

/-- Embeds the grouping `OrderedDict(zip(hours, zip(temp, rain_probability,
rain_intensity)))` shared verbatim by `SinoptikProvider.download_data`
(sinoptik.py) and the cache loop of update_cache.py. -/
def group_by_hour (hour : Nat)
    (temp rain_probability rain_intensity : List String) :
    List (String × String × String × String) :=
  od_from_pairs
    ((hour_labels hour).zip (temp.zip (rain_probability.zip rain_intensity)))

/-- Embeds `SinoptikProvider.download_data(self, location_id=None,
location_name=None)`. `locations` is `self.locations`, `hour` is
`int(now.strftime("%H"))`, and `page` stands for `utils.get_html` composed
with the three XPath extractions: it maps the fetched URL to the document's
extracted lists. The result is the `OrderedDict` the method returns, or the
uncaught exception it raises; an exception from name resolution propagates,
which the outer match makes explicit. -/
def download_data (locations : List Location) (hour : Nat)
    (location_id location_name : Option String) (page : String → Page) :
    Except PyErr (List (String × String × String × String)) :=
  match (if truthyStr location_id then Except.ok (location_id.getD "")
         else
           match location_name with
           | some n => get_location_id_by_name locations n
           | none => Except.error PyErr.typeError) with
  | Except.error e => Except.error e
  | Except.ok lid =>
      if lid == "" then Except.error PyErr.valueError
      else
        Except.ok (group_by_hour hour (page (hourly_url lid)).temp
          (page (hourly_url lid)).rain_probability
          (page (hourly_url lid)).rain_intensity)

/-- A registered provider object as the registry sees it: its `id` attribute
and its `covers_location` method called with a location name only — exactly
how `find_provider` invokes it
(`provider.covers_location(location_name=location_name)`). -/
structure Provider where
  id : String
  covers_location : String → PyTruth

/-- Embeds `BaseWeatherProvider.find_provider(cls, provider_id=None,
location_name=None)`: when `provider_id` is truthy, scan `cls.providers` for
the first id match and return it; when that scan found nothing (or was
skipped) and `location_name` is truthy, scan for the first provider whose
coverage check is truthy; otherwise return `None`. -/
def find_provider (providers : List Provider)
    (provider_id location_name : Option String) : Option Provider :=
  match (if truthyStr provider_id then
           providers.find? (fun p => p.id == provider_id.getD "")
         else none) with
  | some p => some p
  | none =>
    if truthyStr location_name then
      providers.find? (fun p => truthy (p.covers_location (location_name.getD "")))
    else none

/-- State of `ProviderMetaClass`: the shared `provider_classes` and
`providers` lists. A singleton instance `cls()` is represented by the name of
its class. The surrounding `Option` distinguishes the moment before any class
definition ran, when neither attribute exists yet. -/
structure RegistryState where
  provider_classes : List String
  providers : List String
  deriving DecidableEq, Repr

/-- Embeds `ProviderMetaClass.__init__`: the first class processed (the base
class, which lacks the `provider_classes` attribute) creates the two empty
lists and is not registered; every later class is appended to
`provider_classes` together with a fresh singleton instance `cls()` appended
to `providers`. -/
def metaclass_init (st : Option RegistryState) (cls : String) : RegistryState :=
  match st with
  | none => ⟨[], []⟩
  | some s => ⟨s.provider_classes ++ [cls], s.providers ++ [cls]⟩

/-- Runs the metaclass over a sequence of class definitions, in definition
order. -/
def define_classes (classes : List String) : Option RegistryState :=
  classes.foldl (fun st cls => some (metaclass_init st cls)) none

/-- Embeds the path computation of update_cache.py:
`os.path.join(config.cache_dir, location_name)` followed by
`os.path.join(dir, '%s.json' % now.strftime('%Y%m%d'))`. -/
def cache_filename (cache_dir location_name date : String) : String :=
  cache_dir ++ "/" ++ location_name ++ "/" ++ date ++ ".json"

/-- Result of one iteration of the cache loop for one location: the resulting
file system (a path-to-contents association list), the number of provider
download calls performed, and the number of writes to the day's file. -/
structure CacheRun where
  files : List (String × String)
  provider_calls : Nat
  file_writes : Nat
  deriving DecidableEq, Repr

/-- Embeds the body of the per-location loop of update_cache.py: when the
dated file already exists the iteration only logs and continues; otherwise it
resolves the location, fetches and parses the page (abstracted as `download`,
counted as one provider call) and writes the serialized result to the file.
`os.makedirs` creates directories only, never the day's file, and is not
modelled. -/
def cache_location (download : Unit → String) (files : List (String × String))
    (cache_dir location_name date : String) : CacheRun :=
  let filename := cache_filename cache_dir location_name date
  if (files.lookup filename).isSome then
    ⟨files, 0, 0⟩
  else
    ⟨(filename, download ()) :: files, 1, 1⟩

/-- Embeds the hardcoded location table that
`SinoptikProvider.populate_default_locations` assigns to `self.locations` in
`__init__`, entry for entry, in the order listed in the source. -/
def default_locations : List Location := [
  Location.mk "Аврен" "avren-bulgaria-100733587",
  Location.mk "Айтос" "aytos-bulgaria-100733579",
  Location.mk "Аксаково" "aksakovo-bulgaria-100733716",
  Location.mk "Албена" "albena-bulgaria-100733702",
  Location.mk "Алфатар" "alfatar-bulgaria-100733679",
  Location.mk "Антон" "anton-bulgaria-100733660",
  Location.mk "Антоново" "antonovo-bulgaria-100733657",
  Location.mk "Априлци" "apriltsi-bulgaria-100733649",
  Location.mk "Ардино" "ardino-bulgaria-100733638",
  Location.mk "Асеновград" "asenovgrad-bulgaria-100733618",
  Location.mk "Ахтопол" "akhtopol-bulgaria-100733722",
  Location.mk "Балчик" "balchik-bulgaria-100733515",
  Location.mk "Баните" "banite-bulgaria-100733474",
  Location.mk "Банско" "bansko-bulgaria-100733462",
  Location.mk "Батак" "batak-bulgaria-100733433",
  Location.mk "Батановци" "batanovtsi-bulgaria-100726489",
  Location.mk "Безбог" "bezbog-bulgaria-307000001",
  Location.mk "Белене" "belene-bulgaria-100733359",
  Location.mk "Белица" "belitsa-bulgaria-100733322",
  Location.mk "Белмекен" "belmeken-bulgaria-307000004",
  Location.mk "Белово" "belovo-bulgaria-100733286",
  Location.mk "Белоградчик" "belogradchik-bulgaria-100733309",
  Location.mk "Белослав" "beloslav-bulgaria-100725213",
  Location.mk "Берковица" "berkovitsa-bulgaria-100733264",
  Location.mk "Благоевград" "blagoevgrad-bulgaria-100733191",
  Location.mk "Бобовдол" "bobovdol-bulgaria-100733151",
  Location.mk "Бобошево" "boboshevo-bulgaria-100733153",
  Location.mk "Божурище" "bozhurishte-bulgaria-100732954",
  Location.mk "Бойница" "boynitsa-bulgaria-100732973",
  Location.mk "Бойчиновци" "boychinovtsi-bulgaria-100732986",
  Location.mk "Болярово" "bolyarovo-bulgaria-100733092",
  Location.mk "Борино" "borino-bulgaria-100733067",
  Location.mk "Борован" "borovan-bulgaria-100733058",
  Location.mk "Боровец" "borovets-bulgaria-100733055",
  Location.mk "Борово" "borovo-bulgaria-100733043",
  Location.mk "Ботевград" "botevgrad-bulgaria-100733014",
  Location.mk "Братя Даскалови" "bratya-daskalovi-bulgaria-100732920",
  Location.mk "Брацигово" "bratsigovo-bulgaria-100732924",
  Location.mk "Брегово" "bregovo-bulgaria-100732915",
  Location.mk "Брезник" "breznik-bulgaria-100732883",
  Location.mk "Брезово" "brezovo-bulgaria-100732874",
  Location.mk "Брусарци" "brusartsi-bulgaria-100732862",
  Location.mk "Бургас" "burgas-bulgaria-100732770",
  Location.mk "Бухово" "bukhovo-bulgaria-100732825",
  Location.mk "Бяла" "byala-bulgaria-100732720",
  Location.mk "Бяла" "byala-bulgaria-100732721",
  Location.mk "Бяла Слатина" "byala-slatina-bulgaria-100732704",
  Location.mk "Бяла Черква" "byala-cherkva-bulgaria-100732717",
  Location.mk "Варвара" "varvara-bulgaria-307000007",
  Location.mk "Варна" "varna-bulgaria-100726050",
  Location.mk "Велики Преслав" "veliki-preslav-bulgaria-100727987",
  Location.mk "Велико Търново" "veliko-turnovo-bulgaria-100725993",
  Location.mk "Велинград" "velingrad-bulgaria-100725988",
  Location.mk "Венец" "venets-bulgaria-100725967",
  Location.mk "Ветово" "vetovo-bulgaria-100725935",
  Location.mk "Ветрино" "vetrino-bulgaria-100725924",
  Location.mk "Видин" "vidin-bulgaria-100725905",
  Location.mk "Вихрен" "vihren-bulgaria-307000008",
  Location.mk "Враца" "vratsa-bulgaria-100725712",
  Location.mk "Вълчедръм" "vulchedrum-bulgaria-100725683",
  Location.mk "Вълчидол" "vulchidol-bulgaria-100725679",
  Location.mk "Върбица" "vurbitsa-bulgaria-100725649",
  Location.mk "Вършец" "vurshets-bulgaria-100725623",
  Location.mk "Габрово" "gabrovo-bulgaria-100731549",
  Location.mk "Гара Хитрино" "gara-khitrino-bulgaria-100731520",
  Location.mk "Генерал Тошево" "general-toshevo-bulgaria-100731464",
  Location.mk "Георги-Дамяново" "georgi-damyanovo-bulgaria-100731458",
  Location.mk "Главиница" "glavinitsa-bulgaria-100731415",
  Location.mk "Годеч" "godech-bulgaria-100731384",
  Location.mk "Горна Малина" "gorna-malina-bulgaria-100731239",
  Location.mk "Горна Оряховица" "gorna-oryahovitsa-bulgaria-100731233",
  Location.mk "Гоце Делчев" "gotse-delchev-bulgaria-100731108",
  Location.mk "Грамада" "gramada-bulgaria-100731056",
  Location.mk "Гулянци" "gulyantsi-bulgaria-100730982",
  Location.mk "Гурково" "gurkovo-bulgaria-100730969",
  Location.mk "Гърмен" "gurmen-bulgaria-100730960",
  Location.mk "Две могили" "dve-mogili-bulgaria-100731771",
  Location.mk "Дебелец" "debelets-bulgaria-100732359",
  Location.mk "Девин" "devin-bulgaria-100732285",
  Location.mk "Девня" "devnya-bulgaria-100732280",
  Location.mk "Джебел" "dzhebel-bulgaria-100731741",
  Location.mk "Димитровград" "dimitrovgrad-bulgaria-100732263",
  Location.mk "Димово" "dimovo-bulgaria-100732253",
  Location.mk "Добринище" "dobrinishte-bulgaria-307000009",
  Location.mk "Добрич" "dobrich-bulgaria-100726418",
  Location.mk "Долна Баня" "dolna-banya-bulgaria-100732145",
  Location.mk "Долна Митрополия" "dolna-mitropoliya-bulgaria-100732122",
  Location.mk "Долни Дъбник" "dolni-dubnik-bulgaria-100732099",
  Location.mk "Долни чифлик" "dolni-chiflik-bulgaria-100731453",
  Location.mk "Долно Камарци" "dolno-kamarci-bulgaria-307000010",
  Location.mk "Доспат" "dospat-bulgaria-100732015",
  Location.mk "Драгоман" "dragoman-bulgaria-100731961",
  Location.mk "Дряново" "dryanovo-bulgaria-100731882",
  Location.mk "Дулово" "dulovo-bulgaria-100731818",
  Location.mk "Дунавци" "dunavtsi-bulgaria-100731809",
  Location.mk "Дупница" "dupnitsa-bulgaria-100726872",
  Location.mk "Дуранкулак" "durankulak-bulgaria-100731803",
  Location.mk "Дългопол" "dulgopol-bulgaria-100731822",
  Location.mk "Елена" "elena-bulgaria-100731696",
  Location.mk "Елин Пелин" "elin-pelin-bulgaria-100731675",
  Location.mk "Елхово" "elkhovo-bulgaria-100731670",
  Location.mk "Емона" "emona-bulgaria-100731653",
  Location.mk "Етрополе" "etropole-bulgaria-100731626",
  Location.mk "Завет" "zavet-bulgaria-100725435",
  Location.mk "Земен" "zemen-bulgaria-100725402",
  Location.mk "Златарица" "zlataritsa-bulgaria-100725295",
  Location.mk "Златица" "zlatitsa-bulgaria-100725283",
  Location.mk "Златни пясъци" "golden-sands-bulgaria-106355004",
  Location.mk "Златоград" "zlatograd-bulgaria-100725271",
  Location.mk "Ивайловград" "ivaylovgrad-bulgaria-100730837",
  Location.mk "Иваново" "ivanovo-bulgaria-100730852",
  Location.mk "Иракли" "irakli-bulgaria-307000002",
  Location.mk "Искър" "iskur-bulgaria-100728348",
  Location.mk "Исперих" "isperikh-bulgaria-100730866",
  Location.mk "Ихтиман" "ikhtiman-bulgaria-100730919",
  Location.mk "Каварна" "kavarna-bulgaria-100730518",
  Location.mk "Казанлък" "kazanlak-bulgaria-100730496",
  Location.mk "Кайнарджа" "kaynardzha-bulgaria-100730504",
  Location.mk "Калофер" "kalofer-bulgaria-100730744",
  Location.mk "Калояново" "kaloyanovo-bulgaria-100730733",
  Location.mk "Камено" "kameno-bulgaria-100730680",
  Location.mk "Каолиново" "kaolinovo-bulgaria-100730651",
  Location.mk "Карлово" "karlovo-bulgaria-100730565",
  Location.mk "Карнобат" "karnobat-bulgaria-100730559",
  Location.mk "Каспичан" "kaspichan-bulgaria-100730542",
  Location.mk "Кермен" "kermen-bulgaria-100730478",
  Location.mk "Килифарево" "kilifarevo-bulgaria-100730367",
  Location.mk "Кирково" "kirkovo-bulgaria-100730355",
  Location.mk "Китен" "kiten-bulgaria-100730338",
  Location.mk "Клисура" "klisura-bulgaria-100730301",
  Location.mk "Кнежа" "knezha-bulgaria-100730287",
  Location.mk "Ковачевци" "kovachevtsi-bulgaria-100730051",
  Location.mk "Козлодуй" "kozloduy-bulgaria-100730013",
  Location.mk "Койнаре" "koynare-bulgaria-100730040",
  Location.mk "Копривщица" "koprivshtitsa-bulgaria-100730159",
  Location.mk "Костинброд" "kostinbrod-bulgaria-100730084",
  Location.mk "Котел" "kotel-bulgaria-100730073",
  Location.mk "Кочериново" "kocherinovo-bulgaria-100730268",
  Location.mk "Кранево" "kranevo-bulgaria-100729984",
  Location.mk "Кресна" "kresna-bulgaria-100729942",
  Location.mk "Криводол" "krivodol-bulgaria-100729909",
  Location.mk "Кричим" "krichim-bulgaria-100729936",
  Location.mk "Крумовград" "krumovgrad-bulgaria-100729896",
  Location.mk "Крушари" "krushari-bulgaria-100729880",
  Location.mk "Кубрат" "kubrat-bulgaria-100729839",
  Location.mk "Кула" "kula-bulgaria-100729825",
  Location.mk "Кърджали" "kardzhali-bulgaria-100729794",
  Location.mk "Кюстендил" "kyustendil-bulgaria-100729730",
  Location.mk "Левски" "levski-bulgaria-100729636",
  Location.mk "Лесичево" "lesichevo-bulgaria-100729667",
  Location.mk "Летница" "letnitsa-bulgaria-100729646",
  Location.mk "Ловеч" "lovech-bulgaria-100729559",
  Location.mk "Лозенец" "lozenets-bulgaria-100729541",
  Location.mk "Лозница" "loznitsa-bulgaria-100729530",
  Location.mk "Лом" "lom-bulgaria-100729581",
  Location.mk "Луковит" "lukovit-bulgaria-100729507",
  Location.mk "Лъки" "luki-bulgaria-100729509",
  Location.mk "Любимец" "lyubimets-bulgaria-100729466",
  Location.mk "Люлин" "lyulin-bulgaria-307000011",
  Location.mk "Лясковец" "lyaskovets-bulgaria-100729489",
  Location.mk "Мадан" "madan-bulgaria-100729439",
  Location.mk "Маджарово" "madzharovo-bulgaria-100729428",
  Location.mk "Макреш" "makresh-bulgaria-100729401",
  Location.mk "Малко Търново" "malko-turnovo-bulgaria-100729322",
  Location.mk "Мальовица" "maliovitsa-bulgaria-307000005",
  Location.mk "Медковец" "medkovets-bulgaria-100729174",
  Location.mk "Мездра" "mezdra-bulgaria-100729134",
  Location.mk "Мелник" "melnik-bulgaria-100729159",
  Location.mk "Мизия" "miziya-bulgaria-100729040",
  Location.mk "Минерални бани" "mineralni-bani-bulgaria-100729073",
  Location.mk "Мирково" "mirkovo-bulgaria-100729064",
  Location.mk "Монтана" "montana-bulgaria-100729114",
  Location.mk "Мусала" "musala-bulgaria-305021306",
  Location.mk "Мъглиж" "muglizh-bulgaria-100728928",
  Location.mk "Невестино" "nevestino-bulgaria-100728818",
  Location.mk "Неделино" "nedelino-bulgaria-100728851",
  Location.mk "Несебър" "nesebur-bulgaria-100728825",
  Location.mk "Николаево" "nikolaevo-bulgaria-100728795",
  Location.mk "Никола-Козлево" "nikola-kozlevo-bulgaria-100728791",
  Location.mk "Никопол" "nikopol-bulgaria-100728782",
  Location.mk "Нова Загора" "nova-zagora-bulgaria-100728742",
  Location.mk "Нови пазар" "novi-pazar-bulgaria-100728734",
  Location.mk "Ново село" "novo-selo-bulgaria-100728709",
  Location.mk "Обзор" "obzor-bulgaria-100728674",
  Location.mk "Омуртаг" "omurtag-bulgaria-100728634",
  Location.mk "Опака" "opaka-bulgaria-100728631",
  Location.mk "Опан" "opan-bulgaria-100728627",
  Location.mk "Оряхово" "oryakhovo-bulgaria-100728565",
  Location.mk "Павел баня" "pavel-banya-bulgaria-100728389",
  Location.mk "Павликени" "pavlikeni-bulgaria-100728385",
  Location.mk "Пазарджик" "pazardzhik-bulgaria-100728378",
  Location.mk "Пампорово" "pamporovo-bulgaria-211002088",
  Location.mk "Панагюрище" "panagyurishte-bulgaria-100728448",
  Location.mk "Перник" "pernik-bulgaria-100728330",
  Location.mk "Перущица" "perushtitsa-bulgaria-100728321",
  Location.mk "Петрич" "petrich-bulgaria-100728288",
  Location.mk "Пещера" "peshtera-bulgaria-100728317",
  Location.mk "Пирдоп" "pirdop-bulgaria-100728251",
  Location.mk "Плевен" "pleven-bulgaria-100728203",
  Location.mk "Плиска" "pliska-bulgaria-100728199",
  Location.mk "Пловдив" "plovdiv-bulgaria-100728193",
  Location.mk "Полски Тръмбеш" "polski-trumbesh-bulgaria-100728124",
  Location.mk "Поморие" "pomorie-bulgaria-100728108",
  Location.mk "Попово" "popovo-bulgaria-100728075",
  Location.mk "Пордим" "pordim-bulgaria-100728056",
  Location.mk "Правец" "pravets-bulgaria-100728011",
  Location.mk "Приморско" "primorsko-bulgaria-100727964",
  Location.mk "Провадия" "provadiya-bulgaria-100727921",
  Location.mk "Равда" "ravda-bulgaria-100727759",
  Location.mk "Раднево" "radnevo-bulgaria-100727838",
  Location.mk "Радомир" "radomir-bulgaria-100727832",
  Location.mk "Разград" "razgrad-bulgaria-100727696",
  Location.mk "Разлог" "razlog-bulgaria-100727689",
  Location.mk "Ракитово" "rakitovo-bulgaria-100727801",
  Location.mk "Раковски" "rakovski-bulgaria-100727791",
  Location.mk "Резово" "rezovo-bulgaria-100727649",
  Location.mk "Рила" "rila-bulgaria-100727628",
  Location.mk "Роман" "roman-bulgaria-100727598",
  Location.mk "Рудозем" "rudozem-bulgaria-100727552",
  Location.mk "Руен" "ruen-bulgaria-100727547",
  Location.mk "Ружинци" "ruzhintsi-bulgaria-100727495",
  Location.mk "Русе" "ruse-bulgaria-100727523",
  Location.mk "Садово" "sadovo-bulgaria-100727479",
  Location.mk "Самоков" "samokov-bulgaria-100727462",
  Location.mk "Самуил" "samuil-bulgaria-100727455",
  Location.mk "Сандански" "sandanski-bulgaria-100727447",
  Location.mk "Сапарева баня" "sapareva-banya-bulgaria-100727441",
  Location.mk "Сарафово" "sarafovo-bulgaria-100727434",
  Location.mk "Сатовча" "satovcha-bulgaria-100727423",
  Location.mk "Свети Влас" "sveti-vlas-bulgaria-100725816",
  Location.mk "Свиленград" "svilengrad-bulgaria-100726546",
  Location.mk "Свищов" "svishtov-bulgaria-100726534",
  Location.mk "Своге" "svoge-bulgaria-100726524",
  Location.mk "Севлиево" "sevlievo-bulgaria-100727337",
  Location.mk "Сеново" "senovo-bulgaria-100727358",
  Location.mk "Септември" "septemvri-bulgaria-100727354",
  Location.mk "Силистра" "silistra-bulgaria-100727221",
  Location.mk "Симеоновград" "simeonovgrad-bulgaria-100727217",
  Location.mk "Симитли" "simitli-bulgaria-100727212",
  Location.mk "Синеморец" "sinemorets-bulgaria-100727201",
  Location.mk "Ситово" "sitovo-bulgaria-100727175",
  Location.mk "Славяново" "slavyanovo-bulgaria-100727087",
  Location.mk "Сливен" "sliven-bulgaria-100727079",
  Location.mk "Сливница" "slivnitsa-bulgaria-100727069",
  Location.mk "Сливо Поле" "slivo-pole-bulgaria-100727067",
  Location.mk "Слънчев бряг" "sunny-beach-bulgaria-106355005",
  Location.mk "Смолян" "smolyan-bulgaria-100727030",
  Location.mk "Смядово" "smyadovo-bulgaria-100727025",
  Location.mk "Созопол" "sozopol-bulgaria-100726963",
  Location.mk "София" "sofia-bulgaria-100727011",
  Location.mk "Средец" "sredets-bulgaria-100731016",
  Location.mk "Стамболийски" "stamboliyski-bulgaria-100726890",
  Location.mk "Стамболово" "stambolovo-bulgaria-100726888",
  Location.mk "Стара Загора" "stara-zagora-bulgaria-100726848",
  Location.mk "Стара Кресна" "stara-kresna-bulgaria-100726863",
  Location.mk "Стражица" "strazhitsa-bulgaria-100726727",
  Location.mk "Стралджа" "straldzha-bulgaria-100726748",
  Location.mk "Стрелча" "strelcha-bulgaria-100726723",
  Location.mk "Струмяни" "strumyani-bulgaria-100726693",
  Location.mk "Суворово" "suvorovo-bulgaria-100726591",
  Location.mk "Сунгурларе" "sungurlare-bulgaria-100726629",
  Location.mk "Сухиндол" "sukhindol-bulgaria-100726643",
  Location.mk "Съединение" "suedinenie-bulgaria-100726657",
  Location.mk "Твърдица" "tvurditsa-bulgaria-100726130",
  Location.mk "Тервел" "tervel-bulgaria-100726474",
  Location.mk "Тетевен" "teteven-bulgaria-100726464",
  Location.mk "Тодорка" "todorka-bulgaria-307000012",
  Location.mk "Тончевци" "tonchevtsi-bulgaria-100726409",
  Location.mk "Тополовград" "topolovgrad-bulgaria-100726384",
  Location.mk "Трекляно" "treklyano-bulgaria-100726352",
  Location.mk "Троян" "troyan-bulgaria-100726320",
  Location.mk "Трън" "trun-bulgaria-100726307",
  Location.mk "Трявна" "tryavna-bulgaria-100726287",
  Location.mk "Тутракан" "tutrakan-bulgaria-100726141",
  Location.mk "Търговище" "turgovishte-bulgaria-100726174",
  Location.mk "Угърчин" "ugurchin-bulgaria-100726114",
  Location.mk "Узана" "uzana-bulgaria-307000003",
  Location.mk "Хаджидимово" "khadzhidimovo-bulgaria-100730464",
  Location.mk "Хайредин" "khayredin-bulgaria-100730425",
  Location.mk "Харманли" "kharmanli-bulgaria-100730442",
  Location.mk "Хасково" "haskovo-bulgaria-100730435",
  Location.mk "Хисаря" "khisarya-bulgaria-100730419",
  Location.mk "Царево" "tsarevo-bulgaria-100729125",
  Location.mk "Цар Калоян" "tsar-kaloyan-bulgaria-100730415",
  Location.mk "Ценово" "tsenovo-bulgaria-100726245",
  Location.mk "Чавдар" "chavdar-bulgaria-100732655",
  Location.mk "Челопеч" "chelopech-bulgaria-100732636",
  Location.mk "Чепеларе" "chepelare-bulgaria-100732627",
  Location.mk "Червен бряг" "cherven-bryag-bulgaria-100732491",
  Location.mk "Черни връх" "cherni-vrah-bulgaria-307000006",
  Location.mk "Черноморец" "chernomorets-bulgaria-100732519",
  Location.mk "Черноочене" "chernoochene-bulgaria-100732517",
  Location.mk "Чипровци" "chiprovtsi-bulgaria-100732456",
  Location.mk "Чирпан" "chirpan-bulgaria-100732452",
  Location.mk "Чупрене" "chuprene-bulgaria-100732400",
  Location.mk "Шабла" "shabla-bulgaria-100727329",
  Location.mk "Шипка" "shipka-bulgaria-100727291",
  Location.mk "Шумен" "shumen-bulgaria-100727233",
  Location.mk "Ябланица" "yablanitsa-bulgaria-100725611",
  Location.mk "Якимово" "yakimovo-bulgaria-100725588",
  Location.mk "Якоруда" "yakoruda-bulgaria-100725586",
  Location.mk "Ямбол" "yambol-bulgaria-100725578"
]

/-- The singleton `SinoptikProvider()` instance created when the class
definition is processed by the metaclass: id `"sinoptik"`, location table
`default_locations` (populated by `__init__`). Its coverage check, as used by
the registry, is `covers_location` on that table with a name argument only. -/
def sinoptik_provider : Provider :=
  ⟨"sinoptik", fun n => covers_location default_locations none (some n)⟩

/-- Contents of the registry `BaseWeatherProvider.providers` after the
provider modules are imported: the single `SinoptikProvider` instance. -/
def registered_providers : List Provider := [sinoptik_provider]

/-! Helper lemmas shared by the claim theorems. -/

/-- Truthiness of an inline lookup-result conversion is definedness of the
lookup. -/
theorem truthy_lookup_match (o : Option Location) :
    truthy (match o with
            | some l => PyTruth.location l
            | none => PyTruth.noneV) = o.isSome := by
  cases o <;> rfl

/-- First-match behaviour of a linear scan over an explicit decomposition. -/
theorem find?_append_first {α : Type} (P : α → Bool) (pre post : List α)
    (x : α) (hx : P x = true) (hpre : ∀ y ∈ pre, P y = false) :
    (pre ++ x :: post).find? P = some x := by
  induction pre with
  | nil => simp [List.find?, hx]
  | cons a tl ih =>
      have ha : P a = false := hpre a (by simp)
      simp only [List.cons_append, List.find?, ha]
      exact ih (fun y hy => hpre y (by simp [hy]))

/-- Keys of a zip form a sublist of the key list. -/
theorem map_fst_zip_sublist {α β : Type} (l1 : List α) (l2 : List β) :
    ((l1.zip l2).map Prod.fst).Sublist l1 := by
  induction l1 generalizing l2 with
  | nil => simp
  | cons a tl ih =>
      cases l2 with
      | nil => simp
      | cons b tb =>
          simpa [List.zip_cons_cons] using (ih tb).cons₂ a

/-- Folding OrderedDict insertion over pairs with fresh keys appends them. -/
theorem od_foldl_eq_append {V : Type} (ps : List (String × V)) :
    ∀ acc : List (String × V), ((acc ++ ps).map Prod.fst).Nodup →
      ps.foldl (fun d kv => od_insert d kv.1 kv.2) acc = acc ++ ps := by
  induction ps with
  | nil => intro acc _; simp
  | cons kv tl ih =>
      intro acc h
      have h2 := h
      rw [List.map_append, List.nodup_append] at h2
      have hmem : kv.1 ∉ acc.map Prod.fst := fun hx => h2.2.2 hx (by simp)
      have hany : acc.any (fun kv2 => kv2.1 == kv.1) = false := by
        by_contra hc
        rw [Bool.not_eq_false, List.any_eq_true] at hc
        obtain ⟨x, hx, hx2⟩ := hc
        exact hmem (List.mem_map.mpr ⟨x, hx, beq_iff_eq.mp hx2⟩)
      have hins : od_insert acc kv.1 kv.2 = acc ++ [kv] := by
        simp [od_insert, hany]
      rw [List.foldl_cons, hins]
      have hnd : (((acc ++ [kv]) ++ tl).map Prod.fst).Nodup := by
        rw [List.append_assoc, List.singleton_append]
        exact h
      rw [ih (acc ++ [kv]) hnd, List.append_assoc, List.singleton_append]

/-- OrderedDict construction from pairs with pairwise distinct keys keeps the
pair list as it is. -/
theorem od_from_pairs_eq_self {V : Type} (ps : List (String × V))
    (h : (ps.map Prod.fst).Nodup) : od_from_pairs ps = ps := by
  have := od_foldl_eq_append ps [] (by simpa using h)
  simpa [od_from_pairs] using this

/-- The 24 generated hour labels are pairwise distinct for every current hour
below 24. -/
theorem hour_labels_nodup : ∀ hour : Nat, hour < 24 → (hour_labels hour).Nodup := by
  decide

/-! Claim theorems. -/

/-- C9: after all provider types are defined, the registry holds exactly one
instance per concrete provider type, in definition order; the base type
(processed first, creating the lists) contributes no instance, and no explicit
register call is involved. -/
theorem define_classes_registry (base : String) (concrete : List String) :
    define_classes (base :: concrete) = some ⟨concrete, concrete⟩ := by
  have aux : ∀ (l xs ys : List String),
      l.foldl (fun st cls => some (metaclass_init st cls))
        (some (RegistryState.mk xs ys)) = some ⟨xs ++ l, ys ++ l⟩ := by
    intro l
    induction l with
    | nil => intro xs ys; simp
    | cons c tl ih =>
        intro xs ys
        rw [List.foldl_cons]
        show tl.foldl _ (some (RegistryState.mk (xs ++ [c]) (ys ++ [c]))) = _
        rw [ih (xs ++ [c]) (ys ++ [c]), List.append_assoc, List.append_assoc,
          List.singleton_append]

  rw [define_classes, List.foldl_cons]
  show concrete.foldl _ (some (RegistryState.mk [] [])) = _
  rw [aux concrete [] []]
  simp

/-- C2: the daily cache job is idempotent per location-day: after a first
invocation, a second invocation on the same day for the same location performs
zero provider calls, zero file writes, and leaves the file system — hence the
existing file's contents — unchanged; a first invocation on a missing file
writes it exactly once, and an invocation on an existing file is a complete
no-op (entries are never overwritten). -/
theorem cache_location_idempotent (dl1 dl2 : Unit → String)
    (files : List (String × String)) (cache_dir location_name date : String) :
    cache_location dl2 (cache_location dl1 files cache_dir location_name date).files
        cache_dir location_name date =
      ⟨(cache_location dl1 files cache_dir location_name date).files, 0, 0⟩ ∧
    (files.lookup (cache_filename cache_dir location_name date) = none →
      (cache_location dl1 files cache_dir location_name date).file_writes = 1) ∧
    ((files.lookup (cache_filename cache_dir location_name date)).isSome = true →
      cache_location dl1 files cache_dir location_name date = ⟨files, 0, 0⟩) := by
  cases hlk : files.lookup (cache_filename cache_dir location_name date) with
  | some v =>
      refine ⟨?_, ?_, fun _ => ?_⟩
      · simp [cache_location, hlk]
      · intro hnone
        cases hnone
      · simp [cache_location, hlk]
  | none =>
      refine ⟨?_, fun _ => ?_, fun hs => ?_⟩
      · simp [cache_location, hlk, List.lookup]
      · simp [cache_location, hlk]
      · simp at hs

/-- C2 witness: starting from an empty file system, the first invocation for
one location-day writes the file once, and a second invocation (even with a
different download result pending) performs no provider call, no write, and
leaves the file system unchanged. -/
theorem cache_location_idempotent_witness :
    cache_location (fun _ => "json2")
        ((cache_location (fun _ => "json1") [] "data" "София" "20251012").files)
        "data" "София" "20251012" =
      ⟨(cache_location (fun _ => "json1") [] "data" "София" "20251012").files,
        0, 0⟩ ∧
    (cache_location (fun _ => "json1") [] "data" "София" "20251012").file_writes
      = 1 := by
  have h := cache_location_idempotent (fun _ => "json1") (fun _ => "json2") []
    "data" "София" "20251012"
  exact ⟨h.1, h.2.1 rfl⟩

/-- C5: downloading with only a location name whose name is absent from the
provider's table fails during name-to-id resolution with the unknown-location
error (the uncaught exception from the failed lookup), for every page the
upstream could serve — in particular before any fetch result is consulted. -/
theorem download_data_unknown_location (locs : List Location) (n : String)
    (h : ∀ l ∈ locs, l.name ≠ n) (hour : Nat) (page : String → Page) :
    download_data locs hour none (some n) page = Except.error PyErr.typeError := by
  have hfind : get_location_by_name locs n = none := by
    rw [get_location_by_name, List.find?_eq_none]
    intro l hl
    simp [h l hl]
  simp [download_data, truthyStr, get_location_id_by_name, hfind]

set_option maxRecDepth 100000 in
/-- C5 witness: the test's location name from test_base_provider.py is in no
table entry, and resolution fails accordingly. -/
theorem download_data_unknown_location_witness :
    download_data default_locations 12 none (some "There is no such place")
        (fun _ => ⟨[], [], []⟩) = Except.error PyErr.typeError :=
  download_data_unknown_location default_locations "There is no such place"
    (by decide) 12 (fun _ => ⟨[], [], []⟩)

/-- C10: when every id in the provider's table is non-empty — as in the
hardcoded table — the guard raising
`ValueError("... No location ID specified")` in `download_data` is
unreachable: for every combination of arguments the call either succeeds or
fails earlier, in name resolution, with a different error. -/
theorem download_data_no_valueerror (locs : List Location)
    (hids : ∀ l ∈ locs, l.id ≠ "") (hour : Nat)
    (location_id location_name : Option String) (page : String → Page) :
    download_data locs hour location_id location_name page ≠
      Except.error PyErr.valueError := by
  cases location_id with
  | some s =>
      by_cases hs : s = ""
      · subst hs
        cases location_name with
        | none => simp [download_data, truthyStr]
        | some n =>
            cases hfind : get_location_by_name locs n with
            | none => simp [download_data, truthyStr, get_location_id_by_name, hfind]
            | some l =>
                have hl : l.id ≠ "" :=
                  hids l (List.mem_of_find?_eq_some hfind)
                simp [download_data, truthyStr, get_location_id_by_name, hfind, hl]
      · simp [download_data, truthyStr, hs]
  | none =>
      cases location_name with
      | none => simp [download_data, truthyStr]
      | some n =>
          cases hfind : get_location_by_name locs n with
          | none => simp [download_data, truthyStr, get_location_id_by_name, hfind]
          | some l =>
              have hl : l.id ≠ "" :=
                hids l (List.mem_of_find?_eq_some hfind)
              simp [download_data, truthyStr, get_location_id_by_name, hfind, hl]

set_option maxRecDepth 100000 in
/-- C10 witness: with the hardcoded table, a name-only call does not raise the
ValueError. -/
theorem download_data_no_valueerror_witness :
    download_data default_locations 0 none (some "Бяла")
        (fun _ => ⟨[], [], []⟩) ≠ Except.error PyErr.valueError :=
  download_data_no_valueerror default_locations (by decide) 0 none
    (some "Бяла") (fun _ => ⟨[], [], []⟩)

/-- C7 counterexample: with a table that has a known mapping for the given
name, a call that also passes an unknown id returns the falsy `None` — the
claim's "true exactly when the table has a known mapping for the given
location id or name" fails, because a given id suppresses the name lookup
even when the id is unknown. -/
theorem covers_location_counterexample :
    covers_location [Location.mk "Бяла" "byala-bulgaria-100732720"]
        (some "no-such-id") (some "Бяла") = PyTruth.noneV ∧
    get_location_by_name [Location.mk "Бяла" "byala-bulgaria-100732720"] "Бяла" =
      some (Location.mk "Бяла" "byala-bulgaria-100732720") := by
  exact ⟨rfl, rfl⟩

/-- C7 amended: `covers_location` returns a truthy value (the matching
location entry, rather than the boolean true) exactly when a truthy location
id is given and present in the table, or no truthy id is given and a truthy
name is given and present in the table; in every other case the result is
falsy — in particular, whenever an id is given the name is never consulted,
even if the id is unknown and the name would match. -/
theorem covers_location_truthy_iff (locs : List Location)
    (location_id location_name : Option String) :
    truthy (covers_location locs location_id location_name) = true ↔
      ((truthyStr location_id = true ∧
          ∃ l ∈ locs, l.id = location_id.getD "") ∨
       (truthyStr location_id = false ∧ truthyStr location_name = true ∧
          ∃ l ∈ locs, l.name = location_name.getD "")) := by
  by_cases h1 : truthyStr location_id = true
  · rw [covers_location, if_pos h1, truthy_lookup_match, get_location_by_id,
      List.find?_isSome]
    simp [h1]
  · have h1f : truthyStr location_id = false := by simpa using h1
    by_cases h2 : truthyStr location_name = true
    · rw [covers_location, if_neg (by simp [h1f]), if_pos h2,
        truthy_lookup_match, get_location_by_name, List.find?_isSome]
      simp [h1f, h2]
    · have h2f : truthyStr location_name = false := by simpa using h2
      rw [covers_location, if_neg (by simp [h1f]), if_neg (by simp [h2f])]
      simp [truthy, h1f, h2f]

/-- Unfolding equation for `find_provider` with a `None` provider id. -/
theorem find_provider_none_id (ps : List Provider) (lname : Option String) :
    find_provider ps none lname =
      (if truthyStr lname then
         ps.find? (fun p => truthy (p.covers_location (lname.getD "")))
       else none) := rfl

/-- Unfolding equation for `find_provider` with a provider id present. -/
theorem find_provider_some_id (ps : List Provider) (X : String)
    (lname : Option String) :
    find_provider ps (some X) lname =
      match (if (X != "") then ps.find? (fun p => p.id == X) else none) with
      | some p => some p
      | none =>
        if truthyStr lname then
          ps.find? (fun p => truthy (p.covers_location (lname.getD "")))
        else none := rfl

set_option maxRecDepth 100000 in
/-- C1 counterexample: with the real registry, providerId "does-not-exist"
matches no registered provider, yet because a locationName covered by the
sinoptik provider is also supplied in the same call, `find_provider` returns
that provider instead of the null the claim demands. -/
theorem find_provider_fallback_counterexample :
    (find_provider registered_providers (some "does-not-exist")
        (some "София")).isSome = true := by
  rfl

/-- C1 amended: with a truthy providerId X, `find_provider` returns the first
registered provider whose identifier equals X regardless of any locationName;
when no registered provider has identifier X the call falls back to the
locationName scan, so it returns null only when the locationName argument is
not truthy or no registered provider covers it, and returns the first covering
provider when a covered locationName is supplied. -/
theorem find_provider_by_id_with_fallback (ps : List Provider) (X : String)
    (hX : X ≠ "") (lname : Option String) :
    (∀ pre p post, ps = pre ++ p :: post → p.id = X →
       (∀ q ∈ pre, q.id ≠ X) → find_provider ps (some X) lname = some p) ∧
    ((∀ p ∈ ps, p.id ≠ X) → truthyStr lname = false →
       find_provider ps (some X) lname = none) ∧
    (∀ L, L ≠ "" → (∀ p ∈ ps, p.id ≠ X) →
       ((∀ p ∈ ps, truthy (p.covers_location L) = false) →
          find_provider ps (some X) (some L) = none) ∧
       (∀ pre q post, ps = pre ++ q :: post →
          truthy (q.covers_location L) = true →
          (∀ r ∈ pre, truthy (r.covers_location L) = false) →
          find_provider ps (some X) (some L) = some q)) := by
  have hbX : (X != "") = true := bne_iff_ne.mpr hX
  refine ⟨?_, ?_, ?_⟩
  · intro pre p post hdecomp hpid hpre
    subst hdecomp
    rw [find_provider_some_id, if_pos hbX,
      find?_append_first (fun p2 => p2.id == X) pre post p
        (beq_iff_eq.mpr hpid) (fun q hq => by simpa using hpre q hq)]
  · intro hid hlf
    have hnone : ps.find? (fun p => p.id == X) = none :=
      List.find?_eq_none.mpr (fun p hp => by simpa using hid p hp)
    rw [find_provider_some_id, if_pos hbX, hnone, hlf]
    simp
  · intro L hL hid
    have hnone : ps.find? (fun p => p.id == X) = none :=
      List.find?_eq_none.mpr (fun p hp => by simpa using hid p hp)
    have hbL : truthyStr (some L) = true := by
      simp [truthyStr]
      exact hL
    constructor
    · intro hnocover
      have hnone2 : ps.find?
          (fun p => truthy (p.covers_location ((some L).getD ""))) = none :=
        List.find?_eq_none.mpr (fun p hp => by simpa using hnocover p hp)
      rw [find_provider_some_id, if_pos hbX, hnone, hbL]
      simp only [if_true]
      exact hnone2
    · intro pre q post hdecomp hq hpre
      subst hdecomp
      rw [find_provider_some_id, if_pos hbX,
        List.find?_eq_none.mpr (fun p hp => by simpa using hid p hp), hbL]
      simp only [if_true]
      exact find?_append_first _ pre post q (by simpa using hq)
        (fun r hr => by simpa using hpre r hr)

set_option maxRecDepth 100000 in
/-- C1 witness: the registry resolves id "sinoptik" to the sinoptik instance
(for any locationName argument), returns null for an unknown id with no
locationName, and falls back to coverage lookup for an unknown id with a
covered locationName. -/
theorem find_provider_by_id_with_fallback_witness :
    find_provider registered_providers (some "sinoptik") none =
        some sinoptik_provider ∧
    find_provider registered_providers (some "ThereIsNoSuchProvider") none =
        none ∧
    find_provider registered_providers (some "does-not-exist") (some "Варна") =
        some sinoptik_provider := by
  have hids : ∀ p ∈ registered_providers, p.id ≠ "ThereIsNoSuchProvider" := by
    intro p hp
    rw [registered_providers, List.mem_singleton] at hp
    subst hp
    decide
  have hids2 : ∀ p ∈ registered_providers, p.id ≠ "does-not-exist" := by
    intro p hp
    rw [registered_providers, List.mem_singleton] at hp
    subst hp
    decide
  refine ⟨?_, ?_, ?_⟩
  · exact (find_provider_by_id_with_fallback registered_providers "sinoptik"
      (by decide) none).1 [] sinoptik_provider [] rfl rfl
      (fun q hq => absurd hq (List.not_mem_nil q))
  · exact (find_provider_by_id_with_fallback registered_providers
      "ThereIsNoSuchProvider" (by decide) none).2.1 hids rfl
  · exact ((find_provider_by_id_with_fallback registered_providers
      "does-not-exist" (by decide) (some "Варна")).2.2 "Варна" (by decide)
      hids2).2 [] sinoptik_provider [] rfl (by rfl)
      (fun r hr => absurd hr (List.not_mem_nil r))

/-- C6: with no providerId and only a locationName, `find_provider` returns
the first registered provider, in registration order, whose coverage check on
that name is truthy, and null when no registered provider covers it; with
neither argument it returns null. -/
theorem find_provider_by_location_name (ps : List Provider) (L : String)
    (hL : L ≠ "") :
    (∀ pre q post, ps = pre ++ q :: post →
       truthy (q.covers_location L) = true →
       (∀ r ∈ pre, truthy (r.covers_location L) = false) →
       find_provider ps none (some L) = some q) ∧
    ((∀ p ∈ ps, truthy (p.covers_location L) = false) →
       find_provider ps none (some L) = none) ∧
    find_provider ps none none = none := by
  have hbL : truthyStr (some L) = true := by
    simp [truthyStr]
    exact hL
  refine ⟨?_, ?_, rfl⟩
  · intro pre q post hdecomp hq hpre
    subst hdecomp
    rw [find_provider_none_id, hbL]
    simp only [if_true]
    exact find?_append_first _ pre post q (by simpa using hq)
      (fun r hr => by simpa using hpre r hr)
  · intro hnocover
    rw [find_provider_none_id, hbL]
    simp only [if_true]
    exact List.find?_eq_none.mpr (fun p hp => by simpa using hnocover p hp)

set_option maxRecDepth 100000 in
/-- C6 witness: the registry resolves the configured location name from
test_sinoptik_provider.py to the sinoptik instance, the single registered
provider, which covers it. -/
theorem find_provider_by_location_name_witness :
    find_provider registered_providers none (some "Велико Търново") =
      some sinoptik_provider :=
  (find_provider_by_location_name registered_providers "Велико Търново"
    (by decide)).1 [] sinoptik_provider [] rfl (by rfl)
    (fun r hr => absurd hr (List.not_mem_nil r))

/-- C8: name lookup in a provider table is deterministic first-match: when the
table splits as a prefix without the name, a first entry carrying the name,
and a remainder that still contains another entry with the same name but a
distinct id, the lookup returns that first-listed entry. -/
theorem get_location_by_name_first_match (pre post : List Location)
    (e : Location) (n : String) (he : e.name = n)
    (hpre : ∀ x ∈ pre, x.name ≠ n)
    (_hdup : ∃ e2 ∈ post, e2.name = n ∧ e2.id ≠ e.id) :
    get_location_by_name (pre ++ e :: post) n = some e := by
  rw [get_location_by_name]
  exact find?_append_first _ pre post e (beq_iff_eq.mpr he)
    (fun y hy => by simpa using hpre y hy)

set_option maxRecDepth 100000 in
/-- C8 witness: the hardcoded table holds two entries named "Бяла" with
distinct ids, at positions 44 and 45, and lookup by that name returns the
first-listed one. -/
theorem get_location_by_name_first_match_witness :
    get_location_by_name default_locations "Бяла" =
      some (Location.mk "Бяла" "byala-bulgaria-100732720") := by
  have h := get_location_by_name_first_match (default_locations.take 44)
    (default_locations.drop 45)
    (Location.mk "Бяла" "byala-bulgaria-100732720") "Бяла" rfl (by decide)
    ⟨Location.mk "Бяла" "byala-bulgaria-100732721", by decide, rfl, by decide⟩
  have he : default_locations.take 44 ++
      (Location.mk "Бяла" "byala-bulgaria-100732720") ::
        default_locations.drop 45 = default_locations := by rfl
  rw [he] at h
  exact h

/-- Unfolding equation for `download_data`. -/
theorem download_data_eq (locations : List Location) (hour : Nat)
    (location_id location_name : Option String) (page : String → Page) :
    download_data locations hour location_id location_name page =
      match (if truthyStr location_id then Except.ok (location_id.getD "")
             else
               match location_name with
               | some n => get_location_id_by_name locations n
               | none => Except.error PyErr.typeError) with
      | Except.error e => Except.error e
      | Except.ok lid =>
          if lid == "" then Except.error PyErr.valueError
          else
            Except.ok (group_by_hour hour (page (hourly_url lid)).temp
              (page (hourly_url lid)).rain_probability
              (page (hourly_url lid)).rain_intensity) := rfl

/-- C3: with a non-empty location id, current hour H below 24, and three
extracted lists of lengths a, b, c, the download produces, without error, the
ordered mapping of exactly m = min(min(a, min(b, c)), 24) entries whose i-th
entry pairs the label for hour (H + i) mod 24 with the triple of the values at
position i of the three lists — for lists shorter than 24 this yields exactly
that many entries. -/
theorem download_data_rolling_window (hour : Nat) (hhour : hour < 24)
    (locs : List Location) (lid : String) (hlid : lid ≠ "")
    (temp prob inten : List String) :
    download_data locs hour (some lid) none (fun _ => ⟨temp, prob, inten⟩) =
      Except.ok ((List.range
          (min (min temp.length (min prob.length inten.length)) 24)).map
        (fun i => (toString ((hour + i) % 24) ++ ":00",
          (temp.getD i "", prob.getD i "", inten.getD i "")))) := by
  have hbne : (lid != "") = true := bne_iff_ne.mpr hlid
  have hbeq : (lid == "") = false := by
    simpa using hlid
  rw [download_data_eq]
  simp only [truthyStr, Option.getD_some, hbne, if_true, hbeq, Bool.false_eq_true,
    if_false]
  congr 1
  rw [group_by_hour]
  have hsub := map_fst_zip_sublist (hour_labels hour)
    (temp.zip (prob.zip inten))
  have hnd := List.Nodup.sublist hsub (hour_labels_nodup hour hhour)
  rw [od_from_pairs_eq_self _ hnd]
  have hlab : (hour_labels hour).length = 24 := by
    simp [hour_labels]
  apply List.ext_getElem
  · simp only [List.length_zip, List.length_map, List.length_range, hlab]
    omega
  · intro i h1 h2
    have hi : i < min 24 (min temp.length (min prob.length inten.length)) := by
      simpa [List.length_zip, hlab] using h1
    have hit : i < temp.length := by omega
    have hip : i < prob.length := by omega
    have hii : i < inten.length := by omega
    have hi24 : i < 24 := by omega
    rw [List.getElem_zip, List.getElem_zip, List.getElem_zip, List.getElem_map,
      List.getElem_range]
    simp only [hour_labels, List.getElem_map, List.getElem_range]
    rw [List.getD_eq_getElem temp "" hit, List.getD_eq_getElem prob "" hip,
      List.getD_eq_getElem inten "" hii]

/-- C3 witness: at hour 18 with two-element lists, exactly two entries are
produced, keyed "18:00" and "19:00", pairing the values positionally. -/
theorem download_data_rolling_window_witness :
    download_data [] 18 (some "veliko-turnovo-bulgaria-100725993") none
        (fun _ => ⟨["2°", "3°"], ["17%", "18%"], ["0.0 mm", "0.1 mm"]⟩) =
      Except.ok [("18:00", ("2°", "17%", "0.0 mm")),
                 ("19:00", ("3°", "18%", "0.1 mm"))] := by
  have h := download_data_rolling_window 18 (by decide) []
    "veliko-turnovo-bulgaria-100725993" (by decide)
    ["2°", "3°"] ["17%", "18%"] ["0.0 mm", "0.1 mm"]
  rw [h]
  rfl

/-- C4 counterexample: at current hour five with singleton lists, the produced
(and then persisted) mapping's key is "5:00", a single-digit hour label, not
the "05:00" the claim demands. -/
theorem download_data_key_not_padded_counterexample :
    download_data [] 5 (some "avren-bulgaria-100733587") none
        (fun _ => ⟨["1°"], ["2%"], ["0.0 mm"]⟩) =
      Except.ok [("5:00", ("1°", "2%", "0.0 mm"))] ∧
    ("5:00" : String) ≠ "05:00" := by
  constructor
  · rfl
  · decide

/-- C4 amended: every key of the produced mapping (the object the cache job
serializes) is an hour label of the form "H:00" where H is the hour number
0 to 23 printed without zero padding — one digit for hours below ten, two
otherwise; hour five yields the key "5:00". -/
theorem download_data_keys_unpadded (hour : Nat) (hhour : hour < 24)
    (locs : List Location) (location_id location_name : Option String)
    (page : String → Page) (L : List (String × String × String × String))
    (hok : download_data locs hour location_id location_name page =
      Except.ok L) :
    ∀ kv ∈ L, ∃ h2, h2 < 24 ∧ kv.1 = toString h2 ++ ":00" := by
  rw [download_data_eq] at hok
  have hL : ∃ t p i2, L = group_by_hour hour t p i2 := by
    split at hok
    · cases hok
    · split at hok
      · cases hok
      · injection hok with h
        exact ⟨_, _, _, h.symm⟩
  obtain ⟨t, p, i2, hLg⟩ := hL
  subst hLg
  intro kv hkv
  rw [group_by_hour,
    od_from_pairs_eq_self _
      (List.Nodup.sublist (map_fst_zip_sublist _ _)
        (hour_labels_nodup hour hhour))] at hkv
  have hkey : kv.1 ∈ hour_labels hour :=
    (map_fst_zip_sublist (hour_labels hour) (t.zip (p.zip i2))).subset
      (List.mem_map_of_mem Prod.fst hkv)
  rw [hour_labels] at hkey
  obtain ⟨j, _, hj⟩ := List.mem_map.mp hkey
  exact ⟨(hour + j) % 24, Nat.mod_lt _ (by omega), hj.symm⟩

/-- C4 amended witness: at hour five the single produced key "5:00" is indeed
an unpadded hour label. -/
theorem download_data_keys_unpadded_witness :
    ∃ h2, h2 < 24 ∧ ("5:00" : String) = toString h2 ++ ":00" := by
  have h := download_data_keys_unpadded 5 (by decide) []
    (some "avren-bulgaria-100733587") none
    (fun _ => ⟨["1°"], ["2%"], ["0.0 mm"]⟩)
    [("5:00", ("1°", "2%", "0.0 mm"))] (by rfl)
    ("5:00", ("1°", "2%", "0.0 mm")) (by simp)
  exact h

end Tron
